import Mathlib

/-!
Shallow embedding of `src/python_code/data_generation.py`.

The script seeds numpy's global generator (`np.random.seed(42)`) but every draw
in the four generators comes from Python's `random` module, whose state at
process start is left unseeded.  We model that source as a stream
`s : ℕ → ℚ` of the successive outputs of `random.random()`, each in `[0, 1)`;
`random.randint`, `random.uniform` and `random.choice` are derived from it in
the standard way.  Dates are modelled as integer day offsets from the relevant
start date, months as (year, month) pairs, floats as exact rationals, and
Python's `round` (banker's rounding) as half-to-even rounding on ℚ.
-/

namespace SalesDash

/-- Successive outputs of the process-wide `random.random()` source. -/
abbrev RandStream := ℕ → ℚ

/-- Outputs of `random.random()` lie in `[0, 1)`. -/
def ValidStream (s : RandStream) : Prop := ∀ k, 0 ≤ s k ∧ s k < 1

/-- Model of `random.randint(a, b)`: uniform integer in `[a, b]`, both endpoints included. -/
def randint (a b : ℤ) (u : ℚ) : ℤ := a + ⌊u * ((b : ℚ) - (a : ℚ) + 1)⌋

/-- Model of `random.uniform(a, b)`: `a + (b - a) * u`. -/
def uniform (a b u : ℚ) : ℚ := a + (b - a) * u

/-- Model of `random.choice(l)`: the element of `l` at index `⌊u * len(l)⌋`. -/
def choice {α : Type} [Inhabited α] (l : List α) (u : ℚ) : α :=
  l.getD (⌊u * (l.length : ℚ)⌋).toNat default

/-- Python `int(q)`: truncation toward zero. -/
def pyInt (q : ℚ) : ℤ := if 0 ≤ q then ⌊q⌋ else -⌊-q⌋

/-- Round to the nearest integer, ties to even (Python's rounding mode). -/
def roundHalfEven (q : ℚ) : ℤ :=
  if q - (⌊q⌋ : ℚ) < 1/2 then ⌊q⌋
  else if 1/2 < q - (⌊q⌋ : ℚ) then ⌊q⌋ + 1
  else if ⌊q⌋ % 2 = 0 then ⌊q⌋ else ⌊q⌋ + 1

/-- Python `round(q, nd)` for `nd` decimal digits. -/
def pyRound (nd : ℕ) (q : ℚ) : ℚ :=
  ((roundHalfEven (q * 10 ^ nd) : ℚ)) / 10 ^ nd

theorem roundHalfEven_sub_le (q : ℚ) : |(roundHalfEven q : ℚ) - q| ≤ 1/2 := by
  have h0 : (0 : ℚ) ≤ q - (⌊q⌋ : ℚ) := by
    have := Int.floor_le q; linarith
  have h1 : q - (⌊q⌋ : ℚ) < 1 := by
    have := Int.lt_floor_add_one q; linarith
  unfold roundHalfEven
  split_ifs <;> (rw [abs_le]; push_cast; constructor <;> linarith)

theorem pyRound_sub_le (nd : ℕ) (q : ℚ) :
    |pyRound nd q - q| ≤ 1 / (2 * 10 ^ nd) := by
  have hpow : (0 : ℚ) < 10 ^ nd := by positivity
  have h := roundHalfEven_sub_le (q * 10 ^ nd)
  have hrw : pyRound nd q - q
      = ((roundHalfEven (q * 10 ^ nd) : ℚ) - q * 10 ^ nd) / 10 ^ nd := by
    unfold pyRound; field_simp; ring
  rw [hrw, abs_div, abs_of_pos hpow, div_le_iff₀ hpow]
  calc |(roundHalfEven (q * 10 ^ nd) : ℚ) - q * 10 ^ nd| ≤ 1/2 := h
    _ ≤ 1 / (2 * 10 ^ nd) * 10 ^ nd := by
        rw [div_mul_eq_mul_div, le_div_iff₀ (by positivity)]
        ring_nf
        nlinarith

theorem randint_mem (a b : ℤ) (u : ℚ) (hab : a ≤ b) (h0 : 0 ≤ u) (h1 : u < 1) :
    a ≤ randint a b u ∧ randint a b u ≤ b := by
  have hc : (0 : ℚ) < (b : ℚ) - (a : ℚ) + 1 := by
    have : (a : ℚ) ≤ (b : ℚ) := by exact_mod_cast hab
    linarith
  constructor
  · have hnn : 0 ≤ ⌊u * ((b : ℚ) - (a : ℚ) + 1)⌋ :=
      Int.floor_nonneg.mpr (by positivity)
    unfold randint; omega
  · have hlt : ⌊u * ((b : ℚ) - (a : ℚ) + 1)⌋ < b - a + 1 := by
      rw [Int.floor_lt]
      push_cast
      nlinarith
    unfold randint; omega

theorem uniform_mem (a b u : ℚ) (hab : a ≤ b) (h0 : 0 ≤ u) (h1 : u < 1) :
    a ≤ uniform a b u ∧ uniform a b u ≤ b := by
  unfold uniform
  constructor <;> nlinarith

theorem uniform_lt (a b u : ℚ) (hab : a < b) (h1 : u < 1) :
    uniform a b u < b := by
  unfold uniform; nlinarith

theorem choice_mem {α : Type} [Inhabited α] (l : List α) (u : ℚ)
    (hl : l ≠ []) (h0 : 0 ≤ u) (h1 : u < 1) : choice l u ∈ l := by
  have hlen : 0 < l.length := List.length_pos.mpr hl
  have hlenQ : (0 : ℚ) < (l.length : ℚ) := by exact_mod_cast hlen
  have h2 : ⌊u * (l.length : ℚ)⌋ < (l.length : ℤ) := by
    rw [Int.floor_lt]
    push_cast
    nlinarith
  have h3 : (⌊u * (l.length : ℚ)⌋).toNat < l.length := by omega
  rw [choice, List.getD_eq_getElem _ _ h3]
  exact List.getElem_mem h3

/-! ### Sales data (`generate_sales_data`)

Draw order in the Python source: the `dates` list comprehension consumes one
`randint(0, 1095)` per row first (stream indices `0 .. n-1`), then each body
iteration `i` of the main loop consumes exactly 12 draws in evaluation order
(category, sub-category, region, segment, price, quantity, discount, profit
margin, ship delta, product-name suffix, customer-id suffix, state), at
stream indices `n + 12*i .. n + 12*i + 11`. -/

def categories : List String := ["Technology", "Furniture", "Office Supplies"]

def subcats (cat : String) : List String :=
  if cat = "Technology" then ["Phones", "Computers", "Accessories", "Copiers"]
  else if cat = "Furniture" then ["Chairs", "Tables", "Bookcases", "Furnishings"]
  else ["Paper", "Binders", "Art", "Storage", "Labels"]

def regions : List String := ["East", "West", "Central", "South"]

def segments : List String := ["Consumer", "Corporate", "Home Office"]

def discounts : List ℚ := [0, 0.1, 0.15, 0.2, 0.25]

def states : List String :=
  ["California", "Texas", "New York", "Florida",
   "Illinois", "Pennsylvania", "Ohio", "Georgia"]

/-- One row of `superstore_sales.csv`.  Dates are day offsets from
`datetime(2022, 1, 1)`. -/
structure SalesRow where
  Order_ID : String
  Order_Date : ℤ
  Ship_Date : ℤ
  Category : String
  Sub_Category : String
  Product_Name : String
  Sales : ℚ
  Quantity : ℤ
  Discount : ℚ
  Profit : ℚ
  Region : String
  Segment : String
  Customer_ID : String
  State : String
deriving DecidableEq

/-- Loop body of `generate_sales_data` for row `i` of `n`
(f-strings render integers in decimal, i.e. `Nat.repr`/`toString`). -/
def salesRow (s : RandStream) (n i : ℕ) : SalesRow :=
  let B := n + 12 * i
  let cat := choice categories (s B)
  let subcat := choice (subcats cat) (s (B + 1))
  let region := choice regions (s (B + 2))
  let segment := choice segments (s (B + 3))
  let price : ℚ :=
    if cat = "Technology" then uniform 50 2000 (s (B + 4))
    else if cat = "Furniture" then uniform 100 1500 (s (B + 4))
    else uniform 5 300 (s (B + 4))
  let qty := randint 1 10 (s (B + 5))
  let discount := choice discounts (s (B + 6))
  let sales := price * (qty : ℚ) * (1 - discount)
  let profit := sales * uniform 0.05 0.35 (s (B + 7))
  let orderDate := randint 0 1095 (s i)
  { Order_ID := "ORD-" ++ Nat.repr (i + 1000)
    Order_Date := orderDate
    Ship_Date := orderDate + randint 1 7 (s (B + 8))
    Category := cat
    Sub_Category := subcat
    Product_Name := subcat ++ " " ++ toString (randint 100 999 (s (B + 9)))
    Sales := pyRound 2 sales
    Quantity := qty
    Discount := discount
    Profit := pyRound 2 profit
    Region := region
    Segment := segment
    Customer_ID := "CUST-" ++ toString (randint 1000 9999 (s (B + 10)))
    State := choice states (s (B + 11)) }

/-- Model of `generate_sales_data(n)`.  Python's `range(n)` is empty for `n < 0`,
so a negative count silently yields no rows (and touches no draw). -/
def generate_sales_data (n : ℤ) (s : RandStream) : List SalesRow :=
  (List.range n.toNat).map (salesRow s n.toNat)

/-- Column names of `superstore_sales.csv`, in the order of the row dict. -/
def salesColumns : List String :=
  ["Order_ID", "Order_Date", "Ship_Date", "Category", "Sub_Category",
   "Product_Name", "Sales", "Quantity", "Discount", "Profit", "Region",
   "Segment", "Customer_ID", "State"]

/-- Columns of `pd.DataFrame(data)`: pandas infers them from the keys of the row dicts;
for an empty list of rows the resulting frame has no columns at all. -/
def salesDFColumns (rows : List SalesRow) : List String :=
  match rows with
  | [] => []
  | _ :: _ => salesColumns

/-! ### Operations data (`generate_operations_data`)

One row per (calendar day, shift).  `pd.date_range('2023-01-01',
'2024-12-31', freq='D')` has one entry per day of 2023 and 2024; dates are
day offsets from 2023-01-01.  Each row consumes 6 draws (production,
defect fraction, downtime, efficiency, energy, labor) in evaluation order;
row `j` (the `j`-th (day, shift) pair overall) starts at stream index `6*j`. -/

structure OperationsRow where
  Date : ℤ
  Shift : String
  Units_Produced : ℤ
  Defects : ℤ
  Defect_Rate : ℚ
  Downtime_Minutes : ℤ
  Efficiency : ℚ
  Energy_Used : ℤ
  Labor_Hours : ℤ
deriving DecidableEq

def isLeapYear (y : ℕ) : Bool := (y % 4 = 0 && y % 100 ≠ 0) || y % 400 = 0

def daysInYear (y : ℕ) : ℕ := if isLeapYear y then 366 else 365

/-- Number of entries of `pd.date_range('2023-01-01', '2024-12-31', freq='D')`. -/
def opsNumDays : ℕ := daysInYear 2023 + daysInYear 2024

/-- Inner loop body for day `d`, shift name `sh`, overall row index `j`. -/
def operationsRow (s : RandStream) (d : ℕ) (sh : String) (j : ℕ) : OperationsRow :=
  let B := 6 * j
  let production := randint 800 1200 (s B)
  let defects := pyInt ((production : ℚ) * uniform 0.01 0.05 (s (B + 1)))
  let downtime := randint 0 120 (s (B + 2))
  { Date := (d : ℤ)
    Shift := sh
    Units_Produced := production
    Defects := defects
    Defect_Rate := pyRound 4 ((defects : ℚ) / (production : ℚ))
    Downtime_Minutes := downtime
    Efficiency := pyRound 3 (uniform 0.75 0.98 (s (B + 3)))
    Energy_Used := randint 500 800 (s (B + 4))
    Labor_Hours := randint 150 200 (s (B + 5)) }

/-- The inner `for shift in ['Morning', 'Evening', 'Night']` loop, unrolled. -/
def operationsDay (s : RandStream) (d : ℕ) : List OperationsRow :=
  [operationsRow s d "Morning" (3 * d),
   operationsRow s d "Evening" (3 * d + 1),
   operationsRow s d "Night" (3 * d + 2)]

/-- Model of `generate_operations_data()` (the default `n=2000` parameter is unused
by the body, which iterates over the date range instead). -/
def generate_operations_data (s : RandStream) : List OperationsRow :=
  ((List.range opsNumDays).map (operationsDay s)).flatten

/-! ### Financial data (`generate_financial_data`)

`pd.date_range('2022-01-01', '2024-12-31', freq='MS')` enumerates the month
starts 2022-01-01 .. 2024-12-01, i.e. 36 months; `Month` is modelled as the
(year, month) pair of the month start.  `np.sin(2 * np.pi * i / 12)` is
irrational, so it enters the embedding as a parameter `sinv : ℕ → ℚ`
constrained to `[-1, 1]` (`SinBound`); note `sinv 0` models `sin 0 = 0`.
Each row `i` consumes 5 draws (revenue noise, COGS fraction, opex fraction,
budget factor, cash-flow factor) at stream indices `5*i .. 5*i + 4`. -/

structure FinancialRow where
  Month : ℤ × ℕ
  Revenue : ℚ
  COGS : ℚ
  Operating_Expenses : ℚ
  Gross_Profit : ℚ
  Net_Profit : ℚ
  Budget_Revenue : ℚ
  Cash_Flow : ℚ
deriving DecidableEq

/-- Number of month starts between 2022-01-01 and 2024-12-31: 3 × 12. -/
def numMonths : ℕ := 36

/-- The `i`-th entry of the `MS` month range, as a (year, month) pair. -/
def financialMonth (i : ℕ) : ℤ × ℕ := ((2022 : ℤ) + (i / 12 : ℕ), i % 12 + 1)

def base_revenue : ℚ := 500000

/-- Bound `|np.sin _| ≤ 1`: the only fact about the seasonal factor the code relies on. -/
def SinBound (sinv : ℕ → ℚ) : Prop := ∀ i, -1 ≤ sinv i ∧ sinv i ≤ 1

/-- Loop body of `generate_financial_data` for month index `i`. -/
def financialRow (sinv : ℕ → ℚ) (s : RandStream) (i : ℕ) : FinancialRow :=
  let B := 5 * i
  let trend := base_revenue * (1 + 0.015 * (i : ℚ))
  let seasonal := trend * (1 + 0.1 * sinv i)
  let revenue := seasonal + uniform (-20000) 30000 (s B)
  let cogs := revenue * uniform 0.55 0.65 (s (B + 1))
  let opex := revenue * uniform 0.20 0.30 (s (B + 2))
  let profit := revenue - cogs - opex
  { Month := financialMonth i
    Revenue := pyRound 2 revenue
    COGS := pyRound 2 cogs
    Operating_Expenses := pyRound 2 opex
    Gross_Profit := pyRound 2 (revenue - cogs)
    Net_Profit := pyRound 2 profit
    Budget_Revenue := pyRound 2 (revenue * uniform 0.9 1.1 (s (B + 3)))
    Cash_Flow := pyRound 2 (profit * uniform 0.8 1.2 (s (B + 4))) }

def generate_financial_data (sinv : ℕ → ℚ) (s : RandStream) : List FinancialRow :=
  (List.range numMonths).map (financialRow sinv s)

/-! ### Customer data (`generate_customer_data`)

Each row consumes 7 draws (signup, purchases, avg order, days since last,
satisfaction, support tickets, segment) in evaluation order, at stream
indices `7*i .. 7*i + 6`.  `Signup_Date` is a day offset from
`datetime(2020, 1, 1)`. -/

structure CustomerRow where
  Customer_ID : String
  Signup_Date : ℤ
  Total_Purchases : ℤ
  Avg_Order_Value : ℚ
  Lifetime_Value : ℚ
  Days_Since_Last_Purchase : ℤ
  Churned : ℤ
  Satisfaction_Score : ℤ
  Support_Tickets : ℤ
  Segment : String
deriving DecidableEq

def customerSegments : List String := ["High Value", "Medium Value", "Low Value"]

/-- Loop body of `generate_customer_data` for row `i`. -/
def customerRow (s : RandStream) (i : ℕ) : CustomerRow :=
  let B := 7 * i
  let signup := randint 0 1460 (s B)
  let purchases := randint 1 50 (s (B + 1))
  let avg_order := uniform 50 500 (s (B + 2))
  let lifetime_value := (purchases : ℚ) * avg_order
  let days_since_last := randint 0 365 (s (B + 3))
  let churned : ℤ := if days_since_last > 180 then 1 else 0
  { Customer_ID := "CUST-" ++ Nat.repr (i + 1000)
    Signup_Date := signup
    Total_Purchases := purchases
    Avg_Order_Value := pyRound 2 avg_order
    Lifetime_Value := pyRound 2 lifetime_value
    Days_Since_Last_Purchase := days_since_last
    Churned := churned
    Satisfaction_Score := randint 1 5 (s (B + 4))
    Support_Tickets := randint 0 10 (s (B + 5))
    Segment := choice customerSegments (s (B + 6)) }

/-- Model of `generate_customer_data(n)`; as for sales, `range(n)` is empty for `n < 0`. -/
def generate_customer_data (n : ℤ) (s : RandStream) : List CustomerRow :=
  (List.range n.toNat).map (customerRow s)

/-- Chronological order on the (year, month) pairs of `financialMonth`. -/
def monthLt (a b : ℤ × ℕ) : Prop := a.1 < b.1 ∨ (a.1 = b.1 ∧ a.2 < b.2)

instance (a b : ℤ × ℕ) : Decidable (monthLt a b) := by
  unfold monthLt; infer_instance

/-! ### Claim theorems -/

/-- C5: in `generate_customer_data` the churn flag is `1` exactly on the rows
with `Days_Since_Last_Purchase > 180`, and `0` exactly on the others. -/
theorem churned_iff_days_gt_180 (n : ℤ) (hn : 0 ≤ n) (s : RandStream)
    (r : CustomerRow) (hr : r ∈ generate_customer_data n s) :
    (r.Churned = 1 ↔ r.Days_Since_Last_Purchase > 180) ∧
    (r.Churned = 0 ↔ r.Days_Since_Last_Purchase ≤ 180) := by
  obtain ⟨i, -, rfl⟩ := List.mem_map.mp hr
  dsimp only [customerRow]
  by_cases h : randint 0 365 (s (7 * i + 3)) > 180
  · rw [if_pos h]
    exact ⟨⟨fun _ => h, fun _ => rfl⟩, ⟨fun h0 => by omega, fun hle => by omega⟩⟩
  · rw [if_neg h]
    exact ⟨⟨fun h0 => by omega, fun hgt => by omega⟩, ⟨fun _ => by omega, fun _ => rfl⟩⟩

/-- C5 witness: the rule evaluated on the first row of a concrete run. -/
theorem churned_iff_days_gt_180_witness :
    (0 : ℤ) ≤ 1 ∧
    ((customerRow (fun _ => 0) 0).Churned = 1 ↔
      (customerRow (fun _ => 0) 0).Days_Since_Last_Purchase > 180) ∧
    ((customerRow (fun _ => 0) 0).Churned = 0 ↔
      (customerRow (fun _ => 0) 0).Days_Since_Last_Purchase ≤ 180) :=
  ⟨by norm_num,
   churned_iff_days_gt_180 1 (by norm_num) (fun _ => 0) (customerRow (fun _ => 0) 0)
     (List.mem_map.mpr ⟨0, by simp, rfl⟩)⟩

/-- C7: every sales row ships 1–7 days after its order date, and its
discount is one of the five listed values. -/
theorem ship_delay_and_discount (n : ℤ) (hn : 0 ≤ n) (s : RandStream)
    (hs : ValidStream s) (r : SalesRow) (hr : r ∈ generate_sales_data n s) :
    (1 ≤ r.Ship_Date - r.Order_Date ∧ r.Ship_Date - r.Order_Date ≤ 7) ∧
    (r.Discount = 0 ∨ r.Discount = 0.1 ∨ r.Discount = 0.15 ∨
      r.Discount = 0.2 ∨ r.Discount = 0.25) := by
  obtain ⟨i, -, rfl⟩ := List.mem_map.mp hr
  dsimp only [salesRow]
  constructor
  · obtain ⟨hu0, hu1⟩ := hs (n.toNat + 12 * i + 8)
    have hb := randint_mem 1 7 _ (by norm_num) hu0 hu1
    omega
  · obtain ⟨hu0, hu1⟩ := hs (n.toNat + 12 * i + 6)
    have hmem := choice_mem discounts (s (n.toNat + 12 * i + 6))
      (by simp [discounts]) hu0 hu1
    simpa [discounts] using hmem

/-- C7 witness: the bounds evaluated on the first row of a concrete run. -/
theorem ship_delay_and_discount_witness :
    (0 : ℤ) ≤ 1 ∧
    (1 ≤ (salesRow (fun _ => 0) 1 0).Ship_Date - (salesRow (fun _ => 0) 1 0).Order_Date ∧
      (salesRow (fun _ => 0) 1 0).Ship_Date - (salesRow (fun _ => 0) 1 0).Order_Date ≤ 7) ∧
    ((salesRow (fun _ => 0) 1 0).Discount = 0 ∨
      (salesRow (fun _ => 0) 1 0).Discount = 0.1 ∨
      (salesRow (fun _ => 0) 1 0).Discount = 0.15 ∨
      (salesRow (fun _ => 0) 1 0).Discount = 0.2 ∨
      (salesRow (fun _ => 0) 1 0).Discount = 0.25) :=
  ⟨by norm_num,
   ship_delay_and_discount 1 (by norm_num) (fun _ => 0)
     (fun _ => by norm_num) (salesRow (fun _ => 0) 1 0)
     (List.mem_map.mpr ⟨0, by simp, rfl⟩)⟩

/-- Per-row operations invariants, for any shift name and row index. -/
theorem operationsRow_inv (s : RandStream) (hs : ValidStream s)
    (d : ℕ) (sh : String) (j : ℕ) :
    0 ≤ (operationsRow s d sh j).Defects ∧
    (operationsRow s d sh j).Defects ≤ (operationsRow s d sh j).Units_Produced ∧
    (operationsRow s d sh j).Defect_Rate
      = pyRound 4 (((operationsRow s d sh j).Defects : ℚ) /
          ((operationsRow s d sh j).Units_Produced : ℚ)) := by
  dsimp only [operationsRow]
  obtain ⟨hu0, hu0'⟩ := hs (6 * j)
  obtain ⟨hu1, hu1'⟩ := hs (6 * j + 1)
  have hprod := randint_mem 800 1200 (s (6 * j)) (by norm_num) hu0 hu0'
  have hv := uniform_mem 0.01 0.05 (s (6 * j + 1)) (by norm_num) hu1 hu1'
  set p : ℤ := randint 800 1200 (s (6 * j)) with hp
  set v : ℚ := uniform 0.01 0.05 (s (6 * j + 1)) with hvv
  have hpQ : (800 : ℚ) ≤ (p : ℚ) := by exact_mod_cast hprod.1
  have hx0 : (0 : ℚ) ≤ (p : ℚ) * v := by nlinarith [hv.1]
  have hpyInt : pyInt ((p : ℚ) * v) = ⌊(p : ℚ) * v⌋ := by
    unfold pyInt; rw [if_pos hx0]
  refine ⟨?_, ?_, rfl⟩
  · rw [hpyInt]
    exact Int.floor_nonneg.mpr hx0
  · rw [hpyInt]
    have hxp : (p : ℚ) * v ≤ (p : ℚ) := by nlinarith [hv.1, hv.2]
    calc ⌊(p : ℚ) * v⌋ ≤ ⌊(p : ℚ)⌋ := Int.floor_le_floor hxp
      _ = p := Int.floor_intCast p

/-- C6: every operations row has `0 ≤ Defects ≤ Units_Produced` and stores
`Defect_Rate = round(Defects / Units_Produced, 4)` of its own fields. -/
theorem defects_bounds_and_rate (s : RandStream) (hs : ValidStream s)
    (r : OperationsRow) (hr : r ∈ generate_operations_data s) :
    0 ≤ r.Defects ∧ r.Defects ≤ r.Units_Produced ∧
    r.Defect_Rate = pyRound 4 ((r.Defects : ℚ) / (r.Units_Produced : ℚ)) := by
  obtain ⟨l, hl, hrl⟩ := List.mem_flatten.mp hr
  obtain ⟨d, -, rfl⟩ := List.mem_map.mp hl
  simp only [operationsDay, List.mem_cons, List.not_mem_nil, or_false] at hrl
  rcases hrl with rfl | rfl | rfl <;> exact operationsRow_inv s hs d _ _

/-- C6 witness: the invariants evaluated on a concrete (day, shift) row. -/
theorem defects_bounds_and_rate_witness :
    0 ≤ (operationsRow (fun _ => 0) 0 "Morning" 0).Defects ∧
    (operationsRow (fun _ => 0) 0 "Morning" 0).Defects ≤
      (operationsRow (fun _ => 0) 0 "Morning" 0).Units_Produced ∧
    (operationsRow (fun _ => 0) 0 "Morning" 0).Defect_Rate
      = pyRound 4 (((operationsRow (fun _ => 0) 0 "Morning" 0).Defects : ℚ) /
          ((operationsRow (fun _ => 0) 0 "Morning" 0).Units_Produced : ℚ)) :=
  defects_bounds_and_rate (fun _ => 0) (fun _ => by norm_num) _
    (List.mem_flatten.mpr ⟨operationsDay (fun _ => 0) 0,
      List.mem_map.mpr ⟨0, by simp [opsNumDays, daysInYear, isLeapYear], rfl⟩,
      by simp [operationsDay]⟩)

/-- C8: row-count laws — `n` sales rows, `m` customer rows,
`opsNumDays * 3` operations rows, one financial row per month of the range,
in ascending chronological order of `Month`. -/
theorem row_count_laws (n m : ℤ) (hn : 0 ≤ n) (hm : 0 ≤ m)
    (s₁ s₂ s₃ s₄ : RandStream) (sinv : ℕ → ℚ) :
    ((generate_sales_data n s₁).length : ℤ) = n ∧
    ((generate_customer_data m s₂).length : ℤ) = m ∧
    (generate_operations_data s₃).length = opsNumDays * 3 ∧
    (generate_financial_data sinv s₄).length = numMonths ∧
    ((generate_financial_data sinv s₄).map FinancialRow.Month).Pairwise monthLt := by
  refine ⟨?_, ?_, ?_, ?_, ?_⟩
  · simp [generate_sales_data]; omega
  · simp [generate_customer_data]; omega
  · rw [generate_operations_data, List.length_flatten, List.map_map]
    have he : ∀ d ∈ List.range opsNumDays,
        (List.length ∘ operationsDay s₃) d = 3 := fun d _ => rfl
    rw [List.map_congr_left he, List.map_const', List.sum_replicate,
      List.length_range, smul_eq_mul, Nat.mul_comm]
  · simp [generate_financial_data]
  · rw [generate_financial_data, List.map_map]
    have he : ∀ i ∈ List.range numMonths,
        (FinancialRow.Month ∘ financialRow sinv s₄) i = financialMonth i :=
      fun i _ => rfl
    rw [List.map_congr_left he]
    decide

/-- C8 witness: the laws evaluated at `n = 2`, `m = 3` on concrete streams. -/
theorem row_count_laws_witness :
    (0 : ℤ) ≤ 2 ∧ (0 : ℤ) ≤ 3 ∧
    ((generate_sales_data 2 (fun _ => 0)).length : ℤ) = 2 ∧
    ((generate_customer_data 3 (fun _ => 0)).length : ℤ) = 3 ∧
    (generate_operations_data (fun _ => 0)).length = opsNumDays * 3 ∧
    (generate_financial_data (fun _ => 0) (fun _ => 0)).length = numMonths ∧
    ((generate_financial_data (fun _ => 0) (fun _ => 0)).map
      FinancialRow.Month).Pairwise monthLt :=
  ⟨by norm_num, by norm_num,
   row_count_laws 2 3 (by norm_num) (by norm_num)
     (fun _ => 0) (fun _ => 0) (fun _ => 0) (fun _ => 0) (fun _ => 0)⟩

/-- C4 counterexample: `generate_sales_data(0)` builds `pd.DataFrame([])`,
whose column index is empty — the 14-name header is not preserved. -/
theorem sales_zero_header_lost :
    generate_sales_data 0 (fun _ => 0) = [] ∧
    salesDFColumns (generate_sales_data 0 (fun _ => 0)) ≠ salesColumns :=
  ⟨rfl, by decide⟩

/-- C4 amended: `generate_sales(0)` returns zero data rows, and the resulting
frame's column schema is empty rather than the fixed 14-column header. -/
theorem sales_zero_amended (s : RandStream) :
    generate_sales_data 0 s = [] ∧
    salesDFColumns (generate_sales_data 0 s) = [] :=
  ⟨rfl, rfl⟩

/-- C4 amended witness: the amended behaviour on a concrete stream. -/
theorem sales_zero_amended_witness :
    generate_sales_data 0 (fun _ => (1:ℚ)/2) = [] ∧
    salesDFColumns (generate_sales_data 0 (fun _ => (1:ℚ)/2)) = [] :=
  sales_zero_amended (fun _ => (1:ℚ)/2)

/-- C3 counterexample: at `n = -1` both generators return normally with an
empty row list — no error is signalled, the parameter is not rejected. -/
theorem negative_n_no_error :
    generate_sales_data (-1) (fun _ => 0) = [] ∧
    generate_customer_data (-1) (fun _ => 0) = [] :=
  ⟨rfl, rfl⟩

/-- C3 amended: for `n < 0` both generators silently return an empty dataset;
no random draw occurs (the output does not depend on the random source), but
no error is signalled either. -/
theorem negative_n_silently_empty (n : ℤ) (hn : n < 0) (s s' : RandStream) :
    generate_sales_data n s = [] ∧
    generate_customer_data n s = [] ∧
    generate_sales_data n s = generate_sales_data n s' ∧
    generate_customer_data n s = generate_customer_data n s' := by
  have h0 : n.toNat = 0 := by omega
  refine ⟨?_, ?_, ?_, ?_⟩ <;>
    simp [generate_sales_data, generate_customer_data, h0]

/-- C3 amended witness: the amended behaviour at `n = -1`. -/
theorem negative_n_silently_empty_witness :
    (-1 : ℤ) < 0 ∧
    generate_sales_data (-1) (fun _ => (1:ℚ)/2) = [] ∧
    generate_customer_data (-1) (fun _ => (1:ℚ)/2) = [] ∧
    generate_sales_data (-1) (fun _ => (1:ℚ)/2)
      = generate_sales_data (-1) (fun _ => (1:ℚ)/4) ∧
    generate_customer_data (-1) (fun _ => (1:ℚ)/2)
      = generate_customer_data (-1) (fun _ => (1:ℚ)/4) :=
  ⟨by norm_num,
   negative_n_silently_empty (-1) (by norm_num) (fun _ => (1:ℚ)/2) (fun _ => (1:ℚ)/4)⟩

/-- Rounding a difference differs from the difference of the roundings by at
most three half-cent errors. -/
theorem pyRound2_sub_diff (a b : ℚ) :
    |pyRound 2 (a - b) - (pyRound 2 a - pyRound 2 b)| ≤ 3/200 := by
  have h1 := pyRound_sub_le 2 (a - b)
  have h2 := pyRound_sub_le 2 a
  have h3 := pyRound_sub_le 2 b
  norm_num at h1 h2 h3
  rw [abs_le] at h1 h2 h3 ⊢
  constructor <;> linarith

/-- Same with three rounded components. -/
theorem pyRound2_sub_diff3 (a b c : ℚ) :
    |pyRound 2 (a - b - c) - (pyRound 2 a - pyRound 2 b - pyRound 2 c)| ≤ 1/50 := by
  have h1 := pyRound_sub_le 2 (a - b - c)
  have h2 := pyRound_sub_le 2 a
  have h3 := pyRound_sub_le 2 b
  have h4 := pyRound_sub_le 2 c
  norm_num at h1 h2 h3 h4
  rw [abs_le] at h1 h2 h3 h4 ⊢
  constructor <;> linarith

/-- A concrete random stream exhibiting the C2 failure in month 0
(`sin 0 = 0`, so the seasonal factor of that month is exact):
the revenue noise draw is `0.40000012`, the COGS fraction draw is `0`. -/
def c2Stream : RandStream := fun k => if k = 0 then 10000003/25000000 else 0

/-- C2 counterexample: in row 0 under `c2Stream` the stored fields are
`Revenue = 500000.01`, `COGS = 275000.00`, `Gross_Profit = 225000.00`,
so `Gross_Profit ≠ Revenue - COGS` — the derived fields are rounded from the
unrounded internals, not recomputed from the stored rounded components. -/
theorem gross_profit_not_exact :
    ValidStream c2Stream ∧
    (generate_financial_data (fun _ => 0) c2Stream)[0]?
      = some (financialRow (fun _ => 0) c2Stream 0) ∧
    (financialRow (fun _ => 0) c2Stream 0).Gross_Profit ≠
      (financialRow (fun _ => 0) c2Stream 0).Revenue
        - (financialRow (fun _ => 0) c2Stream 0).COGS := by
  refine ⟨?_, ?_, ?_⟩
  · intro k
    unfold c2Stream
    split <;> norm_num
  · rfl
  · norm_num [financialRow, financialMonth, base_revenue, uniform, c2Stream,
      pyRound, roundHalfEven]

/-- C2 amended: the stored derived fields agree with the combination of the
stored rounded components only up to rounding slack — `Gross_Profit` is
within `0.015` of `Revenue - COGS` and `Net_Profit` is within `0.02` of
`Revenue - COGS - Operating_Expenses`. -/
theorem financial_derived_fields_tolerance (sinv : ℕ → ℚ) (s : RandStream)
    (r : FinancialRow) (hr : r ∈ generate_financial_data sinv s) :
    |r.Gross_Profit - (r.Revenue - r.COGS)| ≤ 3/200 ∧
    |r.Net_Profit - (r.Revenue - r.COGS - r.Operating_Expenses)| ≤ 1/50 := by
  obtain ⟨i, -, rfl⟩ := List.mem_map.mp hr
  dsimp only [financialRow]
  exact ⟨pyRound2_sub_diff _ _, pyRound2_sub_diff3 _ _ _⟩

/-- C2 amended witness: the tolerances evaluated on a concrete row. -/
theorem financial_derived_fields_tolerance_witness :
    financialRow (fun _ => 0) c2Stream 0
      ∈ generate_financial_data (fun _ => 0) c2Stream ∧
    |(financialRow (fun _ => 0) c2Stream 0).Gross_Profit -
      ((financialRow (fun _ => 0) c2Stream 0).Revenue
        - (financialRow (fun _ => 0) c2Stream 0).COGS)| ≤ 3/200 ∧
    |(financialRow (fun _ => 0) c2Stream 0).Net_Profit -
      ((financialRow (fun _ => 0) c2Stream 0).Revenue
        - (financialRow (fun _ => 0) c2Stream 0).COGS
        - (financialRow (fun _ => 0) c2Stream 0).Operating_Expenses)| ≤ 1/50 :=
  have hmem : financialRow (fun _ => 0) c2Stream 0
      ∈ generate_financial_data (fun _ => 0) c2Stream :=
    List.mem_map.mpr ⟨0, by simp [numMonths], rfl⟩
  ⟨hmem, financial_derived_fields_tolerance (fun _ => 0) c2Stream
    (financialRow (fun _ => 0) c2Stream 0) hmem⟩

/-- C9: every financial row stores strictly positive `Revenue` and
`Net_Profit`: the trend keeps pre-noise revenue at least `450000`, the noise
subtracts at most `20000`, and COGS + opex consume less than 95% of
revenue. -/
theorem financial_positive (sinv : ℕ → ℚ) (hsin : SinBound sinv)
    (s : RandStream) (hs : ValidStream s) (r : FinancialRow)
    (hr : r ∈ generate_financial_data sinv s) :
    0 < r.Revenue ∧ 0 < r.Net_Profit := by
  obtain ⟨i, -, rfl⟩ := List.mem_map.mp hr
  dsimp only [financialRow]
  obtain ⟨hu0, hu0'⟩ := hs (5 * i)
  obtain ⟨hu1, hu1'⟩ := hs (5 * i + 1)
  obtain ⟨hu2, hu2'⟩ := hs (5 * i + 2)
  obtain ⟨hsl, hsu⟩ := hsin i
  have hi : (0 : ℚ) ≤ (i : ℚ) := Nat.cast_nonneg i
  set R : ℚ := base_revenue * (1 + 0.015 * (i : ℚ)) * (1 + 0.1 * sinv i)
      + uniform (-20000) 30000 (s (5 * i)) with hR
  have hnoise := (uniform_mem (-20000) 30000 (s (5 * i)) (by norm_num) hu0 hu0').1
  have hRlb : (430000 : ℚ) ≤ R := by
    rw [hR]
    unfold base_revenue
    nlinarith
  set v₁ : ℚ := uniform 0.55 0.65 (s (5 * i + 1)) with hv₁
  set v₂ : ℚ := uniform 0.20 0.30 (s (5 * i + 2)) with hv₂
  have hv₁b := uniform_mem 0.55 0.65 (s (5 * i + 1)) (by norm_num) hu1 hu1'
  have hv₂b := uniform_mem 0.20 0.30 (s (5 * i + 2)) (by norm_num) hu2 hu2'
  have hprofit : (21500 : ℚ) ≤ R - R * v₁ - R * v₂ := by nlinarith [hv₁b.2, hv₂b.2]
  clear_value R v₁ v₂
  constructor
  · have hb := pyRound_sub_le 2 R
    norm_num at hb
    rw [abs_le] at hb
    linarith
  · have hb := pyRound_sub_le 2 (R - R * v₁ - R * v₂)
    norm_num at hb
    rw [abs_le] at hb
    linarith

/-- C9 witness: positivity evaluated on a concrete row. -/
theorem financial_positive_witness :
    financialRow (fun _ => 0) (fun _ => 0) 0
      ∈ generate_financial_data (fun _ => 0) (fun _ => 0) ∧
    0 < (financialRow (fun _ => 0) (fun _ => 0) 0).Revenue ∧
    0 < (financialRow (fun _ => 0) (fun _ => 0) 0).Net_Profit :=
  have hmem : financialRow (fun _ => 0) (fun _ => 0) 0
      ∈ generate_financial_data (fun _ => 0) (fun _ => 0) :=
    List.mem_map.mpr ⟨0, by simp [numMonths], rfl⟩
  ⟨hmem, financial_positive (fun _ => 0) (fun _ => by norm_num)
    (fun _ => 0) (fun _ => by norm_num)
    (financialRow (fun _ => 0) (fun _ => 0) 0) hmem⟩

/-- First row of a `generate_sales_data(5000)` run. -/
theorem generate_sales_5000_head (s : RandStream) :
    (generate_sales_data 5000 s)[0]? = some (salesRow s 5000 0) := by
  rw [generate_sales_data, List.getElem?_map,
    List.getElem?_range (by norm_num : (0 : ℕ) < (5000 : ℤ).toNat)]
  rfl

/-- C1: the output of `generate_sales(5000)` is NOT a function of the fixed
seed alone.  The script seeds only numpy (`np.random.seed(42)`) while every
draw uses the unseeded `random` module; two runs whose `random` states yield
the all-`0` and the all-`1/2` output streams (both valid) produce different
datasets (already their first rows' `Quantity` differ: 1 vs 6). -/
theorem sales_not_determined_by_seed :
    ValidStream (fun _ => (0 : ℚ)) ∧ ValidStream (fun _ => (1 : ℚ)/2) ∧
    generate_sales_data 5000 (fun _ => 0) ≠ generate_sales_data 5000 (fun _ => 1/2) := by
  refine ⟨fun k => by norm_num, fun k => by norm_num, ?_⟩
  intro h
  have h0 := congrArg (fun l => l[0]?) h
  simp only [generate_sales_5000_head] at h0
  have h1 := congrArg SalesRow.Quantity (Option.some.inj h0)
  norm_num [salesRow, randint] at h1

/-! ### `Nat.repr` injectivity (needed for the uniqueness of customer ids) -/

/-- Numeric value of a decimal digit character. -/
def chVal (c : Char) : ℕ := c.toNat - 48

theorem chVal_digitChar (d : ℕ) (hd : d < 10) : chVal (Nat.digitChar d) = d := by
  interval_cases d <;> rfl

theorem map_chVal_digitChar (l : List ℕ) (hl : ∀ d ∈ l, d < 10) :
    (l.map Nat.digitChar).map chVal = l := by
  induction l with
  | nil => rfl
  | cons a t ih =>
    have ha : a < 10 := hl a (List.mem_cons_self a t)
    have ht : ∀ d ∈ t, d < 10 := fun d hd => hl d (List.mem_cons_of_mem a hd)
    simp [chVal_digitChar a ha, ih ht]

/-- With enough fuel, `Nat.toDigitsCore` produces the decimal digits of `n`
(most significant first) in front of the accumulator. -/
theorem toDigitsCore_eq_digits (f : ℕ) :
    ∀ (n : ℕ) (l : List Char), 0 < n → n < f →
      Nat.toDigitsCore 10 f n l
        = ((Nat.digits 10 n).reverse.map Nat.digitChar) ++ l := by
  induction f with
  | zero => intro n l h1 h2; omega
  | succ f ih =>
    intro n l h1 h2
    rw [Nat.toDigitsCore]
    by_cases hdiv : n / 10 = 0
    · rw [if_pos hdiv, Nat.digits_def' (by norm_num : 1 < 10) h1, hdiv]
      simp
    · rw [if_neg hdiv]
      have hlt : n / 10 < f := by
        have := Nat.div_lt_self h1 (by norm_num : 1 < 10)
        omega
      rw [ih (n / 10) (Nat.digitChar (n % 10) :: l) (Nat.pos_of_ne_zero hdiv) hlt,
        Nat.digits_def' (by norm_num : 1 < 10) h1]
      simp

theorem nat_repr_eq_digits (n : ℕ) (h : 0 < n) :
    Nat.repr n = ((Nat.digits 10 n).reverse.map Nat.digitChar).asString := by
  unfold Nat.repr Nat.toDigits
  rw [toDigitsCore_eq_digits (n + 1) n [] h (by omega)]
  simp

theorem nat_repr_inj_of_pos {a b : ℕ} (ha : 0 < a) (hb : 0 < b)
    (h : Nat.repr a = Nat.repr b) : a = b := by
  rw [nat_repr_eq_digits a ha, nat_repr_eq_digits b hb] at h
  have hdata : (Nat.digits 10 a).reverse.map Nat.digitChar
      = (Nat.digits 10 b).reverse.map Nat.digitChar := by
    simpa [List.asString] using congrArg String.data h
  have hda : ∀ d ∈ (Nat.digits 10 a).reverse, d < 10 := fun d hd =>
    Nat.digits_lt_base (by norm_num) (List.mem_reverse.mp hd)
  have hdb : ∀ d ∈ (Nat.digits 10 b).reverse, d < 10 := fun d hd =>
    Nat.digits_lt_base (by norm_num) (List.mem_reverse.mp hd)
  have hvals := congrArg (List.map chVal) hdata
  rw [map_chVal_digitChar _ hda, map_chVal_digitChar _ hdb] at hvals
  have hdig : Nat.digits 10 a = Nat.digits 10 b := by
    have := congrArg List.reverse hvals
    simpa using this
  calc a = Nat.ofDigits 10 (Nat.digits 10 a) := (Nat.ofDigits_digits 10 a).symm
    _ = Nat.ofDigits 10 (Nat.digits 10 b) := by rw [hdig]
    _ = b := Nat.ofDigits_digits 10 b

/-- The customer-id format `CUST-{i + 1000}` is injective in the row index. -/
theorem custId_inj {i j : ℕ}
    (h : "CUST-" ++ Nat.repr (i + 1000) = "CUST-" ++ Nat.repr (j + 1000)) :
    i = j := by
  have hd := congrArg String.data h
  simp only [String.data_append] at hd
  have hr : Nat.repr (i + 1000) = Nat.repr (j + 1000) :=
    String.ext (List.append_cancel_left hd)
  have := nat_repr_inj_of_pos (by omega) (by omega) hr
  omega

/-- C10: customer ids are pairwise distinct (`CUST-` followed by `i + 1000`),
whereas sales customer ids are random 4-digit suffixes and can repeat: on the
valid all-`0` stream, rows 0 and 1 of `generate_sales_data(2)` share their
`Customer_ID`. -/
theorem customer_ids_distinct (n : ℤ) (hn : 0 ≤ n) (s : RandStream) :
    ((generate_customer_data n s).map CustomerRow.Customer_ID).Pairwise (· ≠ ·) ∧
    ValidStream (fun _ => (0 : ℚ)) ∧
    (salesRow (fun _ => 0) 2 0).Customer_ID = (salesRow (fun _ => 0) 2 1).Customer_ID := by
  refine ⟨?_, fun k => by norm_num, ?_⟩
  · rw [generate_customer_data, List.map_map]
    rw [List.pairwise_map]
    refine (List.pairwise_lt_range n.toNat).imp ?_
    intro i j hij heq
    exact absurd (custId_inj heq) (by omega)
  · norm_num [salesRow, randint]

/-- C10 witness: the distinctness evaluated at `n = 2` on a concrete stream. -/
theorem customer_ids_distinct_witness :
    (0 : ℤ) ≤ 2 ∧
    (((generate_customer_data 2 (fun _ => 0)).map
        CustomerRow.Customer_ID).Pairwise (· ≠ ·) ∧
      ValidStream (fun _ => (0 : ℚ)) ∧
      (salesRow (fun _ => 0) 2 0).Customer_ID
        = (salesRow (fun _ => 0) 2 1).Customer_ID) :=
  ⟨by norm_num, customer_ids_distinct 2 (by norm_num) (fun _ => 0)⟩

end SalesDash
